import Mathlib

/-
Shallow embedding of the reactive state core of LiteZ (src/LiteZ.js):
createState (lines 28-45), createComputed (lines 73-84), and the utility
functions _clone (633-635), _merge (637-639), _persistState (641-646) and
_loadPersistedState (648-653).

Host-language values are modelled by the inductive type JsVal.  Objects are
insertion-ordered association lists (JavaScript objects have no duplicate
keys; claims that need this carry a no-duplicate-keys hypothesis).  The
integer-key-first enumeration order of JavaScript property tables is not
modelled: no claim depends on enumeration order of numeric keys, only on
which keys are present and their values.

JSON.parse(JSON.stringify v) is modelled by the composite function jsonRT
(undefined-valued object fields are dropped, undefined array elements
become null, a top-level undefined makes stringify return undefined).
localStorage is modelled as an association list of StoredVal: either a
valid-JSON text remembered by its parse result, or the literal text
"undefined" that setItem writes when JSON.stringify returned undefined
(JSON.parse of that text throws, modelled by Except.error).

Subscriber callbacks are opaque to the core (listeners.forEach(cb => cb())
invokes each one once, in order, with no arguments), so they are modelled
by identity only: set returns the sequence of callback identities invoked.
-/

inductive JsVal where
  | vUndefined
  | vNull
  | vBool (b : Bool)
  | vNum (n : Int)
  | vStr (s : String)
  | vArr (elems : List JsVal)
  | vObj (fields : List (String × JsVal))

/-- JavaScript truthiness of a value. -/
def truthy : JsVal → Bool
  | .vUndefined => false
  | .vNull => false
  | .vBool b => b
  | .vNum n => decide (n ≠ 0)
  | .vStr s => decide (s ≠ "")
  | .vArr _ => true
  | .vObj _ => true

/-- The test `typeof v === 'object'` used by _merge: true exactly for
objects, arrays and null. -/
def isObjectType : JsVal → Bool
  | .vNull => true
  | .vArr _ => true
  | .vObj _ => true
  | _ => false

/-- A value is defined when it is not the undefined sentinel. -/
def isDefined : JsVal → Bool
  | .vUndefined => false
  | _ => true

/-- First-match association lookup, the JavaScript property read. -/
def alookup {α : Type} : List (String × α) → String → Option α
  | [], _ => none
  | (k', v) :: fs, k => if k' = k then some v else alookup fs k

/-- JavaScript property assignment: overwriting an existing key keeps its
position, a new key is appended. -/
def upsert {α : Type} : List (String × α) → String → α → List (String × α)
  | [], k, v => [(k, v)]
  | (k', v') :: fs, k, v =>
    if k' = k then (k, v) :: fs else (k', v') :: upsert fs k v

/-- Own enumerable properties contributed by spreading a value into an
object literal: objects give their fields, arrays and strings give their
indexed elements, primitives give nothing. -/
def ownProps : JsVal → List (String × JsVal)
  | .vObj fs => fs
  | .vArr xs => xs.enum.map (fun p => (toString p.1, p.2))
  | .vStr s => s.toList.enum.map (fun p => (toString p.1, JsVal.vStr (String.mk [p.2])))
  | _ => []

/-- Sequential property assignment of a property list into an accumulator
object, as object spread performs. -/
def spreadInto (acc : List (String × JsVal)) (props : List (String × JsVal)) :
    List (String × JsVal) :=
  props.foldl (fun a p => upsert a p.1 p.2) acc

/-- LiteZ._merge (src/LiteZ.js lines 637-639):
`typeof source === 'object' ? ({ ...target, ...source }) : source`. -/
def _merge (target source : JsVal) : JsVal :=
  if isObjectType source then
    .vObj (spreadInto (spreadInto [] (ownProps target)) (ownProps source))
  else source

mutual

/-- Composite JSON.parse(JSON.stringify v): none when JSON.stringify
returns undefined (top-level undefined), otherwise the parsed value with
undefined object fields dropped and undefined array elements turned into
null. -/
def jsonRT : JsVal → Option JsVal
  | .vUndefined => none
  | .vNull => some .vNull
  | .vBool b => some (.vBool b)
  | .vNum n => some (.vNum n)
  | .vStr s => some (.vStr s)
  | .vArr xs => some (.vArr (jsonRTElems xs))
  | .vObj fs => some (.vObj (jsonRTFields fs))

/-- Array elements under the JSON round trip: unstringifiable elements
serialize as null. -/
def jsonRTElems : List JsVal → List JsVal
  | [] => []
  | x :: xs => (jsonRT x).getD .vNull :: jsonRTElems xs

/-- Object fields under the JSON round trip: unstringifiable values are
dropped with their key. -/
def jsonRTFields : List (String × JsVal) → List (String × JsVal)
  | [] => []
  | (k, v) :: fs =>
    match jsonRT v with
    | some w => (k, w) :: jsonRTFields fs
    | none => jsonRTFields fs

end

mutual

/-- JSON.stringify: none models the undefined result (for undefined input;
functions and symbols behave the same but are not representable here). -/
def jsonStringify : JsVal → Option String
  | .vUndefined => none
  | .vNull => some "null"
  | .vBool b => some (if b then "true" else "false")
  | .vNum n => some (toString n)
  | .vStr s => some ("\"" ++ s ++ "\"")
  | .vArr xs => some ("[" ++ String.intercalate "," (jsonStringifyElems xs) ++ "]")
  | .vObj fs => some ("\x7b" ++ String.intercalate "," (jsonStringifyFields fs) ++ "\x7d")

/-- Serialized array elements; an undefined element serializes as null. -/
def jsonStringifyElems : List JsVal → List String
  | [] => []
  | x :: xs => (jsonStringify x).getD "null" :: jsonStringifyElems xs

/-- Serialized object fields; a field with undefined value is omitted. -/
def jsonStringifyFields : List (String × JsVal) → List String
  | [] => []
  | (k, v) :: fs =>
    match jsonStringify v with
    | some s => ("\"" ++ k ++ "\":" ++ s) :: jsonStringifyFields fs
    | none => jsonStringifyFields fs

end

/-- LiteZ._clone (lines 633-635): JSON.parse(JSON.stringify(obj)); throws
when the stringify result is undefined. -/
def _clone (v : JsVal) : Except Unit JsVal :=
  match jsonRT v with
  | some w => .ok w
  | none => .error ()

/-- A localStorage entry, remembered by how JSON.parse treats it: a valid
JSON text is remembered by its parse result, and the text "undefined"
(written by setItem when JSON.stringify returned undefined) makes
JSON.parse throw. -/
inductive StoredVal where
  | jsonText (v : JsVal)
  | undefText

/-- The persistence environment: whether localStorage exists, the
localStorage contents, and the in-memory LiteZ.persistedState record. -/
structure Env where
  hasLocalStorage : Bool
  localStore : List (String × StoredVal)
  persistedState : List (String × JsVal)

/-- What localStorage.setItem(key, JSON.stringify(value)) stores. -/
def encodeStored (v : JsVal) : StoredVal :=
  match jsonRT v with
  | some w => .jsonText w
  | none => .undefText

/-- LiteZ._persistState (lines 641-646): record the value in
this.persistedState and, when localStorage exists, setItem the stringified
value. -/
def _persistState (key : String) (value : JsVal) (env : Env) : Env :=
  { env with
    persistedState := upsert env.persistedState key value
    localStore :=
      if env.hasLocalStorage then upsert env.localStore key (encodeStored value)
      else env.localStore }

/-- LiteZ._loadPersistedState (lines 648-653): with localStorage, return
JSON.parse(localStorage.getItem(key)) — getItem of an absent key gives
null, which parses to null, and the text "undefined" makes parse throw;
without localStorage, return null. -/
def _loadPersistedState (key : String) (env : Env) : Except Unit JsVal :=
  if env.hasLocalStorage then
    match alookup env.localStore key with
    | none => .ok .vNull
    | some (.jsonText v) => .ok v
    | some .undefText => .error ()
  else .ok .vNull

/-- A reactive cell: the closed-over value, the listeners array (callback
identities in subscription order) and the persistKey argument. -/
structure Cell where
  value : JsVal
  listeners : List Nat
  persistKey : Option String

/-- JavaScript truthiness of the persistKey argument (null and the empty
string are falsy). -/
def keyTruthy : Option String → Bool
  | none => false
  | some s => decide (s ≠ "")

/-- Defaulting of createState's initialValue parameter: an undefined
argument selects the declared default value of an empty object. -/
def defaultInit : JsVal → JsVal
  | .vUndefined => .vObj []
  | v => v

/-- LiteZ.createState (lines 28-45), creation part: seed the value from
the persisted load when the key is truthy and the loaded value is truthy,
otherwise from a clone of the initial value; then persist once when the
key is truthy.  The source evaluates _loadPersistedState twice (in the
condition and in the branch); it is pure, so one evaluation is used for
both. -/
def createState (initialValue : JsVal) (persistKey : Option String) (env : Env) :
    Except Unit (Cell × Env) :=
  let init := defaultInit initialValue
  let valueE : Except Unit JsVal :=
    if keyTruthy persistKey then
      match _loadPersistedState (persistKey.getD "") env with
      | .error e => .error e
      | .ok l => if truthy l then .ok l else _clone init
    else _clone init
  match valueE with
  | .error e => .error e
  | .ok value =>
    let env' :=
      if keyTruthy persistKey then _persistState (persistKey.getD "") value env
      else env
    .ok ({ value := value, listeners := [], persistKey := persistKey }, env')

/-- Property read value[key]; absent keys give undefined.  The TypeError
of reading a property of null or undefined is not modelled (no claim
reads a key of a non-object). -/
def jsIndex (v : JsVal) (k : String) : JsVal :=
  (alookup (ownProps v) k).getD .vUndefined

/-- The cell's get: `(key) => (key ? value[key] : value)`; a falsy key
(absent or empty) returns the whole value. -/
def Cell.get (c : Cell) (key : Option String) : JsVal :=
  match key with
  | none => c.value
  | some k => if k = "" then c.value else jsIndex c.value k

/-- The cell's set (lines 38-42): merge the new value in, persist when the
key is truthy, then invoke every listener once in order with no arguments.
Returns the updated cell, the updated environment, and the sequence of
callback identities invoked. -/
def Cell.set (c : Cell) (newValue : JsVal) (env : Env) : Cell × Env × List Nat :=
  let v' := _merge c.value newValue
  let env' :=
    if keyTruthy c.persistKey then _persistState (c.persistKey.getD "") v' env
    else env
  ({ c with value := v' }, env', c.listeners)

/-- The cell's subscribe (line 43): push the callback onto the listeners
array. -/
def Cell.subscribe (c : Cell) (callback : Nat) : Cell :=
  { c with listeners := c.listeners ++ [callback] }

/-- Subscribe a list of callbacks in order. -/
def subscribeAll (c : Cell) (callbacks : List Nat) : Cell :=
  callbacks.foldl Cell.subscribe c

/-- A derived cell as built by LiteZ.createComputed (lines 73-84),
together with its source cell's value.  The source cell of the modelled
scenario has no persist key and the computed recompute callback as its
only subscriber (createComputed subscribes it at creation). -/
structure CompSys where
  sourceValue : JsVal
  computeFn : JsVal → JsVal
  memoize : Bool
  cache : JsVal
  comp : Cell

/-- LiteZ.createComputed (lines 73-84), creation part: compute once, store
the result in the cache when memoize is set (the cache variable stays
undefined otherwise), and create the computed state from the result
(createState clones it). -/
def createComputed (sourceValue : JsVal) (computeFn : JsVal → JsVal)
    (memoize : Bool) (env : Env) : Except Unit (CompSys × Env) :=
  let first := computeFn sourceValue
  match createState first none env with
  | .error e => .error e
  | .ok (comp, env') =>
    .ok ({ sourceValue := sourceValue, computeFn := computeFn, memoize := memoize
           cache := if memoize then first else .vUndefined, comp := comp }, env')

/-- The recompute callback createComputed subscribes to the source (lines
76-82): recompute; when memoize is off or the JSON serializations differ,
update the cache and set the computed cell (which merges and notifies its
listeners); otherwise do nothing.  Returns the system, the environment
and the computed cell's invoked subscriber sequence. -/
def CompSys.notify (sys : CompSys) (env : Env) : CompSys × Env × List Nat :=
  let newValue := sys.computeFn sys.sourceValue
  if sys.memoize = false ∨ jsonStringify newValue ≠ jsonStringify sys.cache then
    let r := sys.comp.set newValue env
    ({ sys with cache := newValue, comp := r.1 }, r.2.1, r.2.2)
  else (sys, env, [])

/-- A set on the source cell: merge into the source value, then run its
only listener, the recompute callback. -/
def CompSys.sourceSet (sys : CompSys) (newValue : JsVal) (env : Env) :
    CompSys × Env × List Nat :=
  CompSys.notify { sys with sourceValue := _merge sys.sourceValue newValue } env

/-- An operation on a single cell after creation. -/
inductive CellOp where
  | setOp (v : JsVal)
  | subscribeOp (callback : Nat)

/-- Run a sequence of set/subscribe operations on a cell. -/
def runOps (c : Cell) (env : Env) : List CellOp → Cell × Env
  | [] => (c, env)
  | .setOp v :: ops =>
    let r := c.set v env
    runOps r.1 r.2.1 ops
  | .subscribeOp f :: ops => runOps (c.subscribe f) env ops

/-- Environment of a host with no localStorage. -/
def envEmpty : Env := ⟨false, [], []⟩

/-- Environment of a browser host with an empty localStorage. -/
def envLS : Env := ⟨true, [], []⟩

/-- Keys of an association list. -/
def keysOf {α : Type} (fs : List (String × α)) : List String :=
  fs.map Prod.fst

/-- An association list with no duplicate keys, the invariant every
JavaScript object satisfies. -/
abbrev keysNodup {α : Type} (fs : List (String × α)) : Prop :=
  (keysOf fs).Nodup

/-- A cell holding the record with a = 1 and b = 2 and no subscribers. -/
def cellAB : Cell := ⟨.vObj [("a", .vNum 1), ("b", .vNum 2)], [], none⟩

/-- A cell holding the record with a = 1 and no subscribers. -/
def cellA : Cell := ⟨.vObj [("a", .vNum 1)], [], none⟩

/-- A persisted cell holding the record with a = 1 and one subscriber. -/
def cellP : Cell := ⟨.vObj [("a", .vNum 1)], [4], some "k"⟩

/-- A derived-cell system with memoize on: source value, compute function,
cache, computed cell value and computed cell subscribers. -/
def mkSys (f : JsVal → JsVal) (src cache cv : JsVal) (ls : List Nat) : CompSys :=
  ⟨src, f, true, cache, ⟨cv, ls, none⟩⟩

/-- The compute function of testable property P4: n % 2 === 0 on the
source record (a missing or non-numeric n gives NaN % 2 === 0, false). -/
def parityFn (s : JsVal) : JsVal :=
  match jsIndex s "n" with
  | .vNum m => .vBool (decide (m % 2 = 0))
  | _ => .vBool false

/-- A compute function whose result record loses the key a once the
source's n moves away from 1. -/
def shrinkFn (s : JsVal) : JsVal :=
  match jsIndex s "n" with
  | .vNum 1 => .vObj [("a", .vNum 1), ("b", .vNum 2)]
  | _ => .vObj [("b", .vNum 3)]

/-- The P4 scenario: starting from the derived cell built on source
value n = 1 (cache and computed value false) with the given subscribers,
run source sets of n = 3, n = 5 and n = 2, collecting the three invoked
computed-subscriber sequences. -/
def c3Scenario (ls : List Nat) : List Nat × List Nat × List Nat :=
  let r1 := (mkSys parityFn (.vObj [("n", .vNum 1)]) (.vBool false) (.vBool false) ls).sourceSet
    (.vObj [("n", .vNum 3)]) envEmpty
  let r2 := r1.1.sourceSet (.vObj [("n", .vNum 5)]) r1.2.1
  let r3 := r2.1.sourceSet (.vObj [("n", .vNum 2)]) r2.2.1
  (r1.2.2, r2.2.2, r3.2.2)

/-- Create a cell holding the record with a = 1, then set undefined on
it, and report the resulting stored value. -/
def c5Run : Except Unit JsVal :=
  match createState (.vObj [("a", .vNum 1)]) none envEmpty with
  | .error e => .error e
  | .ok (c, env1) => .ok (runOps c env1 [.setOp .vUndefined]).1.value

/-- Create a persisted cell, set undefined on it (persisting the text
"undefined"), then create a second cell bound to the same key. -/
def c7Run : Except Unit (Cell × Env) :=
  match createState (.vObj [("a", .vNum 1)]) (some "k") envLS with
  | .error e => .error e
  | .ok (c, env1) =>
    let r := c.set .vUndefined env1
    createState (.vObj []) (some "k") r.2.1

lemma alookup_upsert_self {α : Type} (fs : List (String × α)) (k : String) (v : α) :
    alookup (upsert fs k v) k = some v := by
  induction fs with
  | nil => simp [upsert, alookup]
  | cons p fs ih =>
    obtain ⟨k', v'⟩ := p
    by_cases h : k' = k
    · simp [upsert, h, alookup]
    · simp [upsert, h, alookup, ih]

lemma alookup_upsert_ne {α : Type} (fs : List (String × α)) (k k' : String) (v : α)
    (h : k' ≠ k) : alookup (upsert fs k v) k' = alookup fs k' := by
  have hne : k ≠ k' := fun hh => h hh.symm
  induction fs with
  | nil =>
    simp only [upsert, alookup]
    rw [if_neg hne]
  | cons p fs ih =>
    obtain ⟨k₀, v₀⟩ := p
    by_cases h₀ : k₀ = k
    · subst h₀
      simp only [upsert, if_pos rfl, alookup]
      rw [if_neg hne, if_neg hne]
    · simp only [upsert, if_neg h₀, alookup]
      by_cases h₁ : k₀ = k'
      · simp [h₁]
      · simp [h₁, ih]

lemma upsert_of_alookup_none {α : Type} (fs : List (String × α)) (k : String) (v : α)
    (h : alookup fs k = none) : upsert fs k v = fs ++ [(k, v)] := by
  induction fs with
  | nil => simp [upsert]
  | cons p fs ih =>
    obtain ⟨k', v'⟩ := p
    by_cases h' : k' = k
    · simp [alookup, h'] at h
    · simp only [alookup, if_neg h'] at h
      simp [upsert, h', ih h]

lemma alookup_eq_none_iff {α : Type} (fs : List (String × α)) (k : String) :
    alookup fs k = none ↔ k ∉ keysOf fs := by
  induction fs with
  | nil => simp [alookup, keysOf]
  | cons p fs ih =>
    obtain ⟨k', v'⟩ := p
    by_cases h : k' = k
    · simp [alookup, h, keysOf]
    · simp [alookup, h, keysOf, Ne.symm h] at ih ⊢
      exact ih

lemma alookup_spreadInto_of_none :
    ∀ (ps : List (String × JsVal)) (k : String), alookup ps k = none →
      ∀ (acc : List (String × JsVal)), alookup (spreadInto acc ps) k = alookup acc k := by
  intro ps
  induction ps with
  | nil => intro k _ acc; simp [spreadInto]
  | cons p ps ih =>
    intro k h acc
    obtain ⟨k', v'⟩ := p
    by_cases h' : k' = k
    · simp [alookup, h'] at h
    · simp only [alookup, if_neg h'] at h
      show alookup (spreadInto (upsert acc k' v') ps) k = alookup acc k
      rw [ih k h, alookup_upsert_ne _ _ _ _ (fun hh => h' hh.symm)]

lemma alookup_spreadInto_of_some :
    ∀ (ps : List (String × JsVal)) (k : String) (v : JsVal), keysNodup ps →
      alookup ps k = some v →
      ∀ (acc : List (String × JsVal)), alookup (spreadInto acc ps) k = some v := by
  intro ps
  induction ps with
  | nil => intro k v _ h acc; simp [alookup] at h
  | cons p ps ih =>
    intro k v hnd h acc
    obtain ⟨k', v'⟩ := p
    simp only [keysNodup, keysOf, List.map_cons, List.nodup_cons] at hnd
    by_cases h' : k' = k
    · subst h'
      simp [alookup] at h
      have hnone : alookup ps k' = none := (alookup_eq_none_iff ps k').2 hnd.1
      show alookup (spreadInto (upsert acc k' v') ps) k' = some v
      rw [alookup_spreadInto_of_none ps k' hnone, alookup_upsert_self, h]
    · simp only [alookup, if_neg h'] at h
      exact ih k v hnd.2 h (upsert acc k' v')

lemma alookup_append_of_none {α : Type} (l1 l2 : List (String × α)) (k : String)
    (h : alookup l1 k = none) : alookup (l1 ++ l2) k = alookup l2 k := by
  induction l1 with
  | nil => simp
  | cons p l1 ih =>
    obtain ⟨k', v'⟩ := p
    by_cases h' : k' = k
    · simp [alookup, h'] at h
    · simp only [alookup, if_neg h'] at h
      simp only [List.cons_append, alookup, if_neg h']
      exact ih h

lemma spreadInto_eq_append :
    ∀ (fs acc : List (String × JsVal)), keysNodup fs →
      (∀ p ∈ fs, alookup acc p.1 = none) → spreadInto acc fs = acc ++ fs := by
  intro fs
  induction fs with
  | nil => intro acc _ _; simp [spreadInto]
  | cons p fs ih =>
    intro acc hnd hdisj
    obtain ⟨k, v⟩ := p
    simp only [keysNodup, keysOf, List.map_cons, List.nodup_cons] at hnd
    show spreadInto (upsert acc k v) fs = acc ++ (k, v) :: fs
    rw [upsert_of_alookup_none acc k v (hdisj (k, v) (by simp))]
    have hdisj' : ∀ q ∈ fs, alookup (acc ++ [(k, v)]) q.1 = none := by
      intro q hq
      have hqk : q.1 ≠ k := by
        intro hh
        exact hnd.1 (hh ▸ (List.mem_map.2 ⟨q, hq, rfl⟩))
      rw [alookup_append_of_none _ _ _ (hdisj q (List.mem_cons_of_mem _ hq))]
      simp only [alookup]
      rw [if_neg (fun hh => hqk hh.symm)]
    rw [ih (acc ++ [(k, v)]) hnd.2 hdisj']
    simp

lemma spreadInto_nil_eq (fs : List (String × JsVal)) (hnd : keysNodup fs) :
    spreadInto [] fs = fs := by
  rw [spreadInto_eq_append fs [] hnd (fun p _ => rfl)]
  simp

lemma jsonRT_isDefined (v w : JsVal) (h : jsonRT v = some w) : isDefined w = true := by
  cases v <;> simp [jsonRT] at h <;> simp [← h, isDefined]

lemma jsonRT_isSome_of_isDefined (v : JsVal) (h : isDefined v = true) :
    (jsonRT v).isSome = true := by
  cases v <;> simp [isDefined] at h ⊢ <;> simp [jsonRT]

lemma alookup_jsonRTFields :
    ∀ (fs : List (String × JsVal)) (k : String) (v w : JsVal), alookup fs k = some v →
      jsonRT v = some w → alookup (jsonRTFields fs) k = some w := by
  intro fs
  induction fs with
  | nil => intro k v w h _; simp [alookup] at h
  | cons p fs ih =>
    intro k v w h hw
    obtain ⟨k', v'⟩ := p
    by_cases hk : k' = k
    · subst hk
      simp [alookup] at h
      rw [← h] at hw
      simp [jsonRTFields, hw, alookup]
    · simp only [alookup, if_neg hk] at h
      cases hrt : jsonRT v' with
      | none => simp [jsonRTFields, hrt, ih k v w h hw]
      | some w' => simp [jsonRTFields, hrt, alookup, hk, ih k v w h hw]

lemma isDefined_of_truthy (v : JsVal) (h : truthy v = true) : isDefined v = true := by
  cases v <;> simp_all [truthy, isDefined]

lemma _merge_isDefined (v nv : JsVal) (h : isDefined nv = true) :
    isDefined (_merge v nv) = true := by
  unfold _merge
  by_cases ho : isObjectType nv
  · simp [ho, isDefined]
  · simp [ho, h]

lemma subscribeAll_eq (c : Cell) (callbacks : List Nat) :
    subscribeAll c callbacks = { c with listeners := c.listeners ++ callbacks } := by
  induction callbacks generalizing c with
  | nil => simp [subscribeAll]
  | cons f fs ih =>
    show subscribeAll (c.subscribe f) fs = _
    rw [ih]
    simp [Cell.subscribe]

lemma createState_ok (v0 : JsVal) (pk : Option String) (env : Env) (c : Cell) (env1 : Env)
    (h : createState v0 pk env = .ok (c, env1)) :
    c.listeners = [] ∧ c.persistKey = pk ∧ isDefined c.value = true ∧
      env1.hasLocalStorage = env.hasLocalStorage := by
  unfold createState at h
  by_cases hk : keyTruthy pk
  · simp only [hk, if_true] at h
    cases hload : _loadPersistedState (pk.getD "") env with
    | error e => simp [hload] at h
    | ok l =>
      simp only [hload] at h
      by_cases ht : truthy l
      · simp only [ht, if_true] at h
        injection h with h
        injection h with hc henv
        subst hc
        refine ⟨rfl, rfl, isDefined_of_truthy l ht, ?_⟩
        rw [← henv]
        simp [_persistState]
      · simp only [ht, if_false] at h
        cases hcl : _clone (defaultInit v0) with
        | error e => simp [hcl] at h
        | ok w =>
          simp only [hcl] at h
          injection h with h
          injection h with hc henv
          subst hc
          have hw : jsonRT (defaultInit v0) = some w := by
            unfold _clone at hcl
            cases hrt : jsonRT (defaultInit v0) <;> simp [hrt] at hcl
            simp [hcl]
          refine ⟨rfl, rfl, jsonRT_isDefined _ _ hw, ?_⟩
          rw [← henv]
          simp [_persistState]
  · simp only [hk, if_false] at h
    cases hcl : _clone (defaultInit v0) with
    | error e => simp [hcl] at h
    | ok w =>
      simp only [hcl] at h
      injection h with h
      injection h with hc henv
      subst hc
      have hw : jsonRT (defaultInit v0) = some w := by
        unfold _clone at hcl
        cases hrt : jsonRT (defaultInit v0) <;> simp [hrt] at hcl
        simp [hcl]
      refine ⟨rfl, rfl, jsonRT_isDefined _ _ hw, ?_⟩
      rw [← henv]
      simp

lemma sourceSet_skip (f : JsVal → JsVal) (src cache cv : JsVal) (ls : List Nat)
    (nv : JsVal) (env : Env)
    (heq : jsonStringify (f (_merge src nv)) = jsonStringify cache) :
    (mkSys f src cache cv ls).sourceSet nv env = (mkSys f (_merge src nv) cache cv ls, env, []) := by
  simp only [CompSys.sourceSet, CompSys.notify, mkSys]
  split
  next h =>
    exfalso
    rcases h with h | h
    · exact Bool.noConfusion h
    · exact h heq
  next h => rfl

lemma sourceSet_fire (f : JsVal → JsVal) (src cache cv : JsVal) (ls : List Nat)
    (nv : JsVal) (env : Env)
    (hne : jsonStringify (f (_merge src nv)) ≠ jsonStringify cache) :
    (mkSys f src cache cv ls).sourceSet nv env =
      (mkSys f (_merge src nv) (f (_merge src nv)) (_merge cv (f (_merge src nv))) ls, env, ls) := by
  simp only [CompSys.sourceSet, CompSys.notify, mkSys]
  split
  next h => rfl
  next h => exact absurd (Or.inr hne) h

lemma runOps_isDefined :
    ∀ (ops : List CellOp) (c : Cell) (env : Env), isDefined c.value = true →
      (∀ v, CellOp.setOp v ∈ ops → isDefined v = true) →
      isDefined (runOps c env ops).1.value = true := by
  intro ops
  induction ops with
  | nil => intro c env h _; exact h
  | cons op ops ih =>
    intro c env h hops
    cases op with
    | setOp v =>
      show isDefined (runOps (c.set v env).1 (c.set v env).2.1 ops).1.value = true
      apply ih
      · exact _merge_isDefined c.value v (hops v (List.mem_cons_self _ _))
      · intro w hw; exact hops w (List.mem_cons_of_mem _ hw)
    | subscribeOp g =>
      show isDefined (runOps (c.subscribe g) env ops).1.value = true
      apply ih
      · exact h
      · intro w hw; exact hops w (List.mem_cons_of_mem _ hw)

example : jsonRT (.vObj [("a", .vNum 1), ("b", .vUndefined)]) = some (.vObj [("a", .vNum 1)]) := rfl

example : _merge (.vObj [("a", .vNum 1), ("b", .vNum 2)]) (.vObj [("b", .vNum 3)]) =
    .vObj [("a", .vNum 1), ("b", .vNum 3)] := rfl

example : _merge (.vObj [("a", .vNum 1)]) .vNull = .vObj [("a", .vNum 1)] := rfl

example : _merge (.vObj [("a", .vNum 1)]) (.vArr [.vNum 7]) =
    .vObj [("a", .vNum 1), ("0", .vNum 7)] := rfl

example : _merge (.vObj [("a", .vNum 1)]) (.vNum 5) = .vNum 5 := rfl

example : _merge (.vObj [("a", .vNum 1)]) .vUndefined = .vUndefined := rfl

/-- C1: for every cell whose current value is a record and every record
argument p, set(p) shallow-merges: afterwards get() maps each top-level
key of p to p's value and leaves every other top-level key of the
pre-call value unchanged; in particular a cell holding a = 1, b = 2 set
with b = 3 reads back a = 1, b = 3. -/
theorem spec_c1_shallow_merge (c : Cell) (env : Env) (fs ps : List (String × JsVal))
    (hval : c.value = .vObj fs) (hfs : keysNodup fs) (hps : keysNodup ps) :
    (∀ k v, alookup ps k = some v →
      jsIndex ((c.set (.vObj ps) env).1.get none) k = v) ∧
    (∀ k, alookup ps k = none →
      jsIndex ((c.set (.vObj ps) env).1.get none) k = jsIndex (c.get none) k) ∧
    (cellAB.set (.vObj [("b", .vNum 3)]) envEmpty).1.get none =
      .vObj [("a", .vNum 1), ("b", .vNum 3)] := by
  have hm : _merge c.value (.vObj ps) = .vObj (spreadInto (spreadInto [] fs) ps) := by
    rw [hval]
    rfl
  refine ⟨?_, ?_, rfl⟩
  · intro k v hkv
    show jsIndex (_merge c.value (.vObj ps)) k = v
    rw [hm]
    show (alookup (spreadInto (spreadInto [] fs) ps) k).getD .vUndefined = v
    rw [alookup_spreadInto_of_some ps k v hps hkv]
    rfl
  · intro k hk
    show jsIndex (_merge c.value (.vObj ps)) k = jsIndex (c.get none) k
    rw [hm]
    show (alookup (spreadInto (spreadInto [] fs) ps) k).getD .vUndefined = jsIndex (c.get none) k
    rw [alookup_spreadInto_of_none ps k hk, spreadInto_nil_eq fs hfs]
    show (alookup fs k).getD .vUndefined = jsIndex c.value k
    rw [hval]
    rfl

/-- C1 witness: the theorem instantiated at the cell holding a = 1, b = 2
and the set argument b = 3. -/
theorem spec_c1_witness :
    jsIndex ((cellAB.set (.vObj [("b", .vNum 3)]) envEmpty).1.get none) "b" = .vNum 3 ∧
    jsIndex ((cellAB.set (.vObj [("b", .vNum 3)]) envEmpty).1.get none) "a" =
      jsIndex (cellAB.get none) "a" :=
  ⟨(spec_c1_shallow_merge cellAB envEmpty [("a", .vNum 1), ("b", .vNum 2)]
      [("b", .vNum 3)] rfl (by decide) (by decide)).1 "b" (.vNum 3) rfl,
   (spec_c1_shallow_merge cellAB envEmpty [("a", .vNum 1), ("b", .vNum 2)]
      [("b", .vNum 3)] rfl (by decide) (by decide)).2.1 "a" rfl⟩

/-- C4 counterexample: the claim also covers sequences/arrays, but an
array has typeof 'object', so _merge spreads it into the record instead
of replacing it: a cell holding a = 1 set with the array [7] does not
read back [7] (it reads back the record with a = 1 and "0" = 7). -/
theorem spec_c4_counterexample :
    (cellA.set (.vArr [.vNum 7]) envEmpty).1.get none ≠ .vArr [.vNum 7] ∧
    (cellA.set (.vArr [.vNum 7]) envEmpty).1.get none =
      .vObj [("a", .vNum 1), ("0", .vNum 7)] := by
  constructor
  · show JsVal.vObj [("a", .vNum 1), ("0", .vNum 7)] ≠ .vArr [.vNum 7]
    simp
  · rfl

/-- C4 amended: set replaces the cell's value outright exactly for
arguments whose typeof is not 'object' — scalars and undefined; record,
array and null arguments are merged instead.  In particular a cell
holding a = 1 set with 5 reads back 5. -/
theorem spec_c4_amended (c : Cell) (env : Env) (nv : JsVal)
    (h : isObjectType nv = false) :
    (c.set nv env).1.get none = nv ∧
    (cellA.set (.vNum 5) envEmpty).1.get none = .vNum 5 := by
  constructor
  · show _merge c.value nv = nv
    unfold _merge
    rw [h]
    simp
  · rfl

/-- C4 witness: the amended theorem instantiated at the cell holding
a = 1 and the scalar 5. -/
theorem spec_c4_witness : (cellA.set (.vNum 5) envEmpty).1.get none = .vNum 5 :=
  (spec_c4_amended cellA envEmpty (.vNum 5) rfl).1

/-- C5 counterexample: creating a cell with value a = 1 and then calling
set(undefined) leaves the stored value undefined at rest, because _merge
returns a non-object source unchanged. -/
theorem spec_c5_counterexample : c5Run = .ok .vUndefined := rfl

/-- C5 amended: the value is seeded defined at creation (from the initial
value or a truthy persisted load), and it stays defined across every
sequence of set/subscribe operations whose set arguments are all
defined; only set(undefined) itself can make it undefined. -/
theorem spec_c5_amended (v0 : JsVal) (pk : Option String) (env : Env) (c : Cell)
    (env1 : Env) (ops : List CellOp)
    (hcr : createState v0 pk env = .ok (c, env1))
    (hops : ∀ v, CellOp.setOp v ∈ ops → isDefined v = true) :
    isDefined c.value = true ∧ isDefined (runOps c env1 ops).1.value = true := by
  have h0 := (createState_ok v0 pk env c env1 hcr).2.2.1
  exact ⟨h0, runOps_isDefined ops c env1 h0 hops⟩

/-- C5 witness: the amended theorem instantiated at a cell created from
the record a = 1 and a subscribe followed by a defined set. -/
theorem spec_c5_witness :
    isDefined (JsVal.vObj [("a", .vNum 1)]) = true ∧
    isDefined (runOps ⟨.vObj [("a", .vNum 1)], [], none⟩ envEmpty
      [.subscribeOp 0, .setOp (.vNum 5)]).1.value = true :=
  spec_c5_amended (.vObj [("a", .vNum 1)]) none envEmpty
    ⟨.vObj [("a", .vNum 1)], [], none⟩ envEmpty [.subscribeOp 0, .setOp (.vNum 5)] rfl
    (by
      intro v hv
      simp only [List.mem_cons, List.not_mem_nil, or_false] at hv
      rcases hv with hv | hv
      · exact CellOp.noConfusion hv
      · injection hv with hv
        rw [hv]
        rfl)

/-- C8: a single set invokes exactly the subscriber list, in subscription
order; subscribing f1, f2, f3 in that order to a fresh cell and calling
set once invokes f1, f2, f3 in that order, exactly once each (callbacks
are invoked with no arguments, which the model expresses by recording
only callback identities). -/
theorem spec_c8_notification_order :
    (∀ (c : Cell) (env : Env) (nv : JsVal), (c.set nv env).2.2 = c.listeners) ∧
    (∀ (c : Cell) (env : Env) (nv : JsVal) (f1 f2 f3 : Nat), c.listeners = [] →
      f1 ≠ f2 → f1 ≠ f3 → f2 ≠ f3 →
      ((((c.subscribe f1).subscribe f2).subscribe f3).set nv env).2.2 = [f1, f2, f3] ∧
      ((((c.subscribe f1).subscribe f2).subscribe f3).set nv env).2.2.count f1 = 1 ∧
      ((((c.subscribe f1).subscribe f2).subscribe f3).set nv env).2.2.count f2 = 1 ∧
      ((((c.subscribe f1).subscribe f2).subscribe f3).set nv env).2.2.count f3 = 1) := by
  refine ⟨fun c env nv => rfl, ?_⟩
  intro c env nv f1 f2 f3 hc h12 h13 h23
  have hfl : ((((c.subscribe f1).subscribe f2).subscribe f3).set nv env).2.2 = [f1, f2, f3] := by
    show ((c.listeners ++ [f1]) ++ [f2]) ++ [f3] = [f1, f2, f3]
    rw [hc]
    rfl
  refine ⟨hfl, ?_, ?_, ?_⟩ <;> rw [hfl] <;>
    simp [List.count_cons, h12, h13, h23, Ne.symm h12, Ne.symm h13, Ne.symm h23]

/-- C8 witness: the theorem instantiated at a fresh cell and the
callbacks 1, 2, 3. -/
theorem spec_c8_witness :
    ((((cellA.subscribe 1).subscribe 2).subscribe 3).set (.vNum 0) envEmpty).2.2 =
      [1, 2, 3] ∧
    ((((cellA.subscribe 1).subscribe 2).subscribe 3).set (.vNum 0) envEmpty).2.2.count 1 = 1 ∧
    ((((cellA.subscribe 1).subscribe 2).subscribe 3).set (.vNum 0) envEmpty).2.2.count 2 = 1 ∧
    ((((cellA.subscribe 1).subscribe 2).subscribe 3).set (.vNum 0) envEmpty).2.2.count 3 = 1 :=
  spec_c8_notification_order.2 cellA envEmpty (.vNum 0) 1 2 3 rfl
    (by decide) (by decide) (by decide)

/-- C9: a Reactive Cell does no dirty-checking: set with an argument
whose JSON serialization equals the current value's still invokes every
subscriber, each subscription exactly once. -/
theorem spec_c9_no_dirty_check (c : Cell) (env : Env) (nv : JsVal)
    (_hdeep : jsonStringify nv = jsonStringify c.value) :
    (c.set nv env).2.2 = c.listeners ∧
    (c.listeners.Nodup → ∀ f ∈ c.listeners, (c.set nv env).2.2.count f = 1) := by
  refine ⟨rfl, ?_⟩
  intro hnd f hf
  show c.listeners.count f = 1
  exact List.count_eq_one_of_mem hnd hf

/-- C9 witness: the theorem instantiated at a cell with two subscribers
and a set argument identical to the current value. -/
theorem spec_c9_witness :
    ((⟨.vObj [("a", .vNum 1)], [5, 9], none⟩ : Cell).set (.vObj [("a", .vNum 1)])
      envEmpty).2.2 = [5, 9] ∧
    (([5, 9] : List Nat).Nodup → ∀ f ∈ ([5, 9] : List Nat),
      ((⟨.vObj [("a", .vNum 1)], [5, 9], none⟩ : Cell).set (.vObj [("a", .vNum 1)])
        envEmpty).2.2.count f = 1) :=
  spec_c9_no_dirty_check ⟨.vObj [("a", .vNum 1)], [5, 9], none⟩ envEmpty
    (.vObj [("a", .vNum 1)]) rfl

/-- C10: for a cell whose value is a record, set(null) merges null as a
no-op (typeof null is 'object' and spreading null contributes no keys),
leaving get() unchanged, while still invoking every subscriber once and
re-persisting the unchanged value under the persistence key. -/
theorem spec_c10_set_null (c : Cell) (env : Env) (fs : List (String × JsVal))
    (hval : c.value = .vObj fs) (hnd : keysNodup fs) :
    (c.set .vNull env).1.get none = c.get none ∧
    (c.set .vNull env).2.2 = c.listeners ∧
    (∀ k, c.persistKey = some k → k ≠ "" →
      alookup ((c.set .vNull env).2.1).persistedState k = some c.value ∧
      (env.hasLocalStorage = true →
        alookup ((c.set .vNull env).2.1).localStore k = some (encodeStored c.value))) := by
  have hmerge : _merge c.value .vNull = c.value := by
    rw [hval]
    show JsVal.vObj (spreadInto [] fs) = .vObj fs
    rw [spreadInto_nil_eq fs hnd]
  refine ⟨hmerge, rfl, ?_⟩
  intro k hpk hk
  have henv : (c.set .vNull env).2.1 = _persistState k c.value env := by
    show (if keyTruthy c.persistKey then
            _persistState (c.persistKey.getD "") (_merge c.value .vNull) env
          else env) = _
    rw [hpk, hmerge]
    simp [keyTruthy, hk]
  rw [henv]
  constructor
  · show alookup (upsert env.persistedState k c.value) k = some c.value
    exact alookup_upsert_self _ _ _
  · intro hls
    show alookup (if env.hasLocalStorage then upsert env.localStore k (encodeStored c.value)
        else env.localStore) k = some (encodeStored c.value)
    rw [hls]
    simp only [if_true]
    exact alookup_upsert_self _ _ _

/-- C10 witness: the theorem instantiated at a persisted cell holding
a = 1 with one subscriber, in a browser environment. -/
theorem spec_c10_witness :
    (cellP.set .vNull envLS).1.get none = cellP.get none ∧
    (cellP.set .vNull envLS).2.2 = cellP.listeners ∧
    alookup ((cellP.set .vNull envLS).2.1).persistedState "k" = some cellP.value ∧
    alookup ((cellP.set .vNull envLS).2.1).localStore "k" = some (encodeStored cellP.value) := by
  have h := spec_c10_set_null cellP envLS [("a", .vNum 1)] rfl (by decide)
  exact ⟨h.1, h.2.1, (h.2.2 "k" rfl (by decide)).1, (h.2.2 "k" rfl (by decide)).2 rfl⟩

/-- C2 counterexample: createComputed propagates through the computed
cell's own set, which shallow-merges record results; with a compute
function whose result record loses the key a when the source moves off
n = 1, after set(n = 2) the derived cell reads a = 1, b = 3 while the
compute function applied to the new source gives only b = 3 — the claim's
full replacement does not happen. -/
theorem spec_c2_counterexample :
    createComputed (.vObj [("n", .vNum 1)]) shrinkFn true envEmpty =
      .ok (mkSys shrinkFn (.vObj [("n", .vNum 1)]) (.vObj [("a", .vNum 1), ("b", .vNum 2)])
        (.vObj [("a", .vNum 1), ("b", .vNum 2)]) [], envEmpty) ∧
    ((mkSys shrinkFn (.vObj [("n", .vNum 1)]) (.vObj [("a", .vNum 1), ("b", .vNum 2)])
        (.vObj [("a", .vNum 1), ("b", .vNum 2)]) []).sourceSet (.vObj [("n", .vNum 2)])
        envEmpty).1.comp.value = .vObj [("a", .vNum 1), ("b", .vNum 3)] ∧
    shrinkFn (((mkSys shrinkFn (.vObj [("n", .vNum 1)]) (.vObj [("a", .vNum 1), ("b", .vNum 2)])
        (.vObj [("a", .vNum 1), ("b", .vNum 2)]) []).sourceSet (.vObj [("n", .vNum 2)])
        envEmpty).1.sourceValue) = .vObj [("b", .vNum 3)] ∧
    JsVal.vObj [("a", .vNum 1), ("b", .vNum 3)] ≠ .vObj [("b", .vNum 3)] := by
  refine ⟨rfl, rfl, rfl, ?_⟩
  simp

/-- C2 amended: when the recomputation must propagate, the derived cell's
value is updated through its own set, which shallow-merges: the new value
is _merge of the previous value with the compute result, so get() equals
the compute result exactly when that result's typeof is not 'object'
(and, more generally, when the merge coincides with it); record results
whose key set shrank keep the stale keys. -/
theorem spec_c2_amended (sys : CompSys) (env : Env)
    (h : sys.memoize = false ∨
      jsonStringify (sys.computeFn sys.sourceValue) ≠ jsonStringify sys.cache) :
    (sys.notify env).1.comp.value = _merge sys.comp.value (sys.computeFn sys.sourceValue) ∧
    (isObjectType (sys.computeFn sys.sourceValue) = false →
      (sys.notify env).1.comp.value = sys.computeFn sys.sourceValue) ∧
    (sys.notify env).2.2 = sys.comp.listeners := by
  simp only [CompSys.notify]
  rw [if_pos h]
  refine ⟨rfl, ?_, rfl⟩
  intro ho
  show _merge sys.comp.value (sys.computeFn sys.sourceValue) = sys.computeFn sys.sourceValue
  unfold _merge
  rw [ho]
  simp

/-- C2 witness: the amended theorem instantiated at the derived cell of
the counterexample scenario after the source moved to n = 2, where the
compute result is a record that lost a key. -/
theorem spec_c2_amended_witness :
    ((mkSys shrinkFn (.vObj [("n", .vNum 2)]) (.vObj [("a", .vNum 1), ("b", .vNum 2)])
        (.vObj [("a", .vNum 1), ("b", .vNum 2)]) []).notify envEmpty).1.comp.value =
      _merge (.vObj [("a", .vNum 1), ("b", .vNum 2)])
        (shrinkFn (.vObj [("n", .vNum 2)])) ∧
    (isObjectType (shrinkFn (.vObj [("n", .vNum 2)])) = false →
      ((mkSys shrinkFn (.vObj [("n", .vNum 2)]) (.vObj [("a", .vNum 1), ("b", .vNum 2)])
        (.vObj [("a", .vNum 1), ("b", .vNum 2)]) []).notify envEmpty).1.comp.value =
        shrinkFn (.vObj [("n", .vNum 2)])) ∧
    ((mkSys shrinkFn (.vObj [("n", .vNum 2)]) (.vObj [("a", .vNum 1), ("b", .vNum 2)])
        (.vObj [("a", .vNum 1), ("b", .vNum 2)]) []).notify envEmpty).2.2 = [] :=
  spec_c2_amended
    (mkSys shrinkFn (.vObj [("n", .vNum 2)]) (.vObj [("a", .vNum 1), ("b", .vNum 2)])
      (.vObj [("a", .vNum 1), ("b", .vNum 2)]) []) envEmpty (Or.inr (by decide))

/-- C3: with memoize on, a recomputation whose JSON serialization equals
the cached result's fires zero computed-cell subscribers and leaves the
cache, the computed value and the environment unchanged, while a
differing recomputation fires every computed-cell subscriber; and in the
P4 scenario (source n = 1, compute n % 2 === 0, built by createComputed
and subscribed to by any callback list), source sets of n = 3 then n = 5
fire nothing and the following set of n = 2 fires the whole subscriber
list exactly once. -/
theorem spec_c3_memoize :
    (∀ (sys : CompSys) (env : Env), sys.memoize = true →
      ((jsonStringify (sys.computeFn sys.sourceValue) = jsonStringify sys.cache →
        (sys.notify env).2.2 = [] ∧ (sys.notify env).1.cache = sys.cache ∧
        (sys.notify env).1.comp.value = sys.comp.value ∧ (sys.notify env).2.1 = env) ∧
       (jsonStringify (sys.computeFn sys.sourceValue) ≠ jsonStringify sys.cache →
        (sys.notify env).2.2 = sys.comp.listeners))) ∧
    createComputed (.vObj [("n", .vNum 1)]) parityFn true envEmpty =
      .ok (mkSys parityFn (.vObj [("n", .vNum 1)]) (.vBool false) (.vBool false) [], envEmpty) ∧
    (∀ ls : List Nat,
      subscribeAll (mkSys parityFn (.vObj [("n", .vNum 1)]) (.vBool false) (.vBool false) []).comp
        ls = (mkSys parityFn (.vObj [("n", .vNum 1)]) (.vBool false) (.vBool false) ls).comp ∧
      c3Scenario ls = ([], [], ls)) := by
  refine ⟨?_, rfl, ?_⟩
  · intro sys env hm
    constructor
    · intro heq
      have hcond : ¬(sys.memoize = false ∨
          jsonStringify (sys.computeFn sys.sourceValue) ≠ jsonStringify sys.cache) := by
        simp [hm, heq]
      simp only [CompSys.notify]
      rw [if_neg hcond]
      exact ⟨rfl, rfl, rfl, rfl⟩
    · intro hne
      simp only [CompSys.notify]
      rw [if_pos (Or.inr hne)]
      rfl
  · intro ls
    constructor
    · rw [subscribeAll_eq]
      rfl
    · rfl

/-- C3 witness: the general memoization part of the theorem instantiated
at two concrete derived-cell states with a concrete subscriber: one whose
recomputation serializes equal to the cache (zero subscribers fired,
cache, value and environment untouched) and one whose recomputation
differs (the subscriber list fired). -/
theorem spec_c3_witness :
    (((mkSys parityFn (.vObj [("n", .vNum 3)]) (.vBool false) (.vBool false) [7]).notify
        envEmpty).2.2 = [] ∧
      ((mkSys parityFn (.vObj [("n", .vNum 3)]) (.vBool false) (.vBool false) [7]).notify
        envEmpty).1.cache = .vBool false ∧
      ((mkSys parityFn (.vObj [("n", .vNum 3)]) (.vBool false) (.vBool false) [7]).notify
        envEmpty).1.comp.value = .vBool false ∧
      ((mkSys parityFn (.vObj [("n", .vNum 3)]) (.vBool false) (.vBool false) [7]).notify
        envEmpty).2.1 = envEmpty) ∧
    ((mkSys parityFn (.vObj [("n", .vNum 2)]) (.vBool false) (.vBool false) [7]).notify
      envEmpty).2.2 = [7] :=
  ⟨(spec_c3_memoize.1 (mkSys parityFn (.vObj [("n", .vNum 3)]) (.vBool false) (.vBool false)
      [7]) envEmpty rfl).1 rfl,
   (spec_c3_memoize.1 (mkSys parityFn (.vObj [("n", .vNum 2)]) (.vBool false) (.vBool false)
      [7]) envEmpty rfl).2 (by decide)⟩

lemma createState_load_error (v0 : JsVal) (k : String) (env : Env)
    (hk : keyTruthy (some k) = true) (hload : _loadPersistedState k env = .error ()) :
    createState v0 (some k) env = .error () := by
  simp only [createState, Option.getD_some]
  rw [if_pos hk, hload]

lemma createState_load_truthy (v0 : JsVal) (k : String) (env : Env) (l : JsVal)
    (hk : keyTruthy (some k) = true) (hload : _loadPersistedState k env = .ok l)
    (ht : truthy l = true) :
    createState v0 (some k) env = .ok (⟨l, [], some k⟩, _persistState k l env) := by
  simp only [createState, Option.getD_some]
  rw [if_pos hk, hload]
  dsimp only
  rw [if_pos ht]
  dsimp only
  rw [if_pos hk]

lemma createState_load_falsy (v0 : JsVal) (k : String) (env : Env) (l w : JsVal)
    (hk : keyTruthy (some k) = true) (hload : _loadPersistedState k env = .ok l)
    (ht : truthy l = false) (hw : jsonRT (defaultInit v0) = some w) :
    createState v0 (some k) env = .ok (⟨w, [], some k⟩, _persistState k w env) := by
  have hcl : _clone (defaultInit v0) = .ok w := by
    unfold _clone
    rw [hw]
  simp only [createState, Option.getD_some]
  rw [if_pos hk, hload]
  dsimp only
  rw [if_neg (by simp [ht]), hcl]
  dsimp only
  rw [if_pos hk]

/-- C7 counterexample: create a persisted cell, set(undefined) on it — the
persist step setItems the text "undefined" — then create a second cell on
the same key: the creation raises out of JSON.parse instead of swallowing
the load failure. -/
theorem spec_c7_counterexample : c7Run = .error () := rfl

/-- C7 amended: a load that finds no stored value (or runs without
localStorage) yields null, is treated as falsy, and creation falls back to
a clone of the initial value without raising; but load failures are not
swallowed — when the stored text for the key is unparseable (the text
"undefined"), createState raises. -/
theorem spec_c7_amended (v0 : JsVal) (k : String) (env : Env) (hk : k ≠ "") :
    ((env.hasLocalStorage = false ∨ alookup env.localStore k = none) →
      ∃ c env', createState v0 (some k) env = .ok (c, env') ∧
        _clone (defaultInit v0) = .ok c.value) ∧
    (env.hasLocalStorage = true → alookup env.localStore k = some .undefText →
      createState v0 (some k) env = .error ()) := by
  have hkt : keyTruthy (some k) = true := by simp [keyTruthy, hk]
  constructor
  · intro hcase
    have hload : _loadPersistedState k env = .ok .vNull := by
      unfold _loadPersistedState
      rcases hcase with h | h
      · rw [h]
        simp
      · cases hls : env.hasLocalStorage
        · simp [hls]
        · simp [hls, h]
    obtain ⟨w, hw⟩ : ∃ w, jsonRT (defaultInit v0) = some w := by
      cases v0 <;> simp [defaultInit, jsonRT]
    refine ⟨⟨w, [], some k⟩, _persistState k w env, ?_, ?_⟩
    · exact createState_load_falsy v0 k env .vNull w hkt hload rfl hw
    · unfold _clone
      rw [hw]
  · intro h1 h2
    apply createState_load_error v0 k env hkt
    unfold _loadPersistedState
    simp [h1, h2]

/-- C7 witness: the amended theorem instantiated at a cold-start browser
environment (falls back to the cloned initial value) and at an
environment whose stored text for the key is unparseable (creation
raises). -/
theorem spec_c7_witness :
    (∃ c env', createState (.vObj [("a", .vNum 1)]) (some "k") envLS = .ok (c, env') ∧
      _clone (defaultInit (.vObj [("a", .vNum 1)])) = .ok c.value) ∧
    createState (.vObj []) (some "k") ⟨true, [("k", .undefText)], []⟩ = .error () :=
  ⟨(spec_c7_amended (.vObj [("a", .vNum 1)]) "k" envLS (by decide)).1 (Or.inr rfl),
   (spec_c7_amended (.vObj []) "k" ⟨true, [("k", .undefText)], []⟩ (by decide)).2 rfl rfl⟩

/-- C6: persistence round-trip — after creating any cell on a truthy
persistence key in a browser environment and calling set of the record
x = 1, creating a new cell on the same key with no initial value succeeds
and its get of x reads 1: the stored post-merge value seeds the new cell
instead of its initial value. -/
theorem spec_c6_persistence_roundtrip (v0 : JsVal) (k : String) (env : Env)
    (c1 : Cell) (env1 : Env) (hls : env.hasLocalStorage = true) (hk : k ≠ "")
    (hcr : createState v0 (some k) env = .ok (c1, env1)) :
    ∃ c3 env3,
      createState .vUndefined (some k) ((c1.set (.vObj [("x", .vNum 1)]) env1).2.1) =
        .ok (c3, env3) ∧ c3.get (some "x") = .vNum 1 := by
  obtain ⟨-, hpk, -, hflag⟩ := createState_ok v0 (some k) env c1 env1 hcr
  rw [hls] at hflag
  have hkt : keyTruthy (some k) = true := by simp [keyTruthy, hk]
  have hmv : _merge c1.value (.vObj [("x", .vNum 1)]) =
      .vObj (upsert (spreadInto [] (ownProps c1.value)) "x" (.vNum 1)) := rfl
  have henv2 : (c1.set (.vObj [("x", .vNum 1)]) env1).2.1 =
      _persistState k (.vObj (upsert (spreadInto [] (ownProps c1.value)) "x" (.vNum 1))) env1 := by
    show (if keyTruthy c1.persistKey then
            _persistState (c1.persistKey.getD "") (_merge c1.value (.vObj [("x", .vNum 1)])) env1
          else env1) = _
    rw [hpk, hmv, Option.getD_some, if_pos hkt]
  have hflag2 : ((c1.set (.vObj [("x", .vNum 1)]) env1).2.1).hasLocalStorage = true := by
    rw [henv2]
    show env1.hasLocalStorage = true
    exact hflag
  have hstore : alookup ((c1.set (.vObj [("x", .vNum 1)]) env1).2.1).localStore k =
      some (.jsonText (.vObj (jsonRTFields
        (upsert (spreadInto [] (ownProps c1.value)) "x" (.vNum 1))))) := by
    rw [henv2]
    show alookup (if env1.hasLocalStorage then
        upsert env1.localStore k (encodeStored
          (.vObj (upsert (spreadInto [] (ownProps c1.value)) "x" (.vNum 1))))
      else env1.localStore) k = _
    rw [if_pos hflag]
    exact alookup_upsert_self _ _ _
  have hload : _loadPersistedState k ((c1.set (.vObj [("x", .vNum 1)]) env1).2.1) =
      .ok (.vObj (jsonRTFields (upsert (spreadInto [] (ownProps c1.value)) "x" (.vNum 1)))) := by
    unfold _loadPersistedState
    rw [if_pos hflag2, hstore]
  have hx : alookup (jsonRTFields (upsert (spreadInto [] (ownProps c1.value)) "x" (.vNum 1)))
      "x" = some (.vNum 1) :=
    alookup_jsonRTFields _ "x" (.vNum 1) (.vNum 1) (alookup_upsert_self _ _ _) rfl
  refine ⟨⟨.vObj (jsonRTFields (upsert (spreadInto [] (ownProps c1.value)) "x" (.vNum 1))),
      [], some k⟩,
    _persistState k
      (.vObj (jsonRTFields (upsert (spreadInto [] (ownProps c1.value)) "x" (.vNum 1))))
      ((c1.set (.vObj [("x", .vNum 1)]) env1).2.1), ?_, ?_⟩
  · exact createState_load_truthy .vUndefined k _ _ hkt hload rfl
  · show (if "x" = "" then
        JsVal.vObj (jsonRTFields (upsert (spreadInto [] (ownProps c1.value)) "x" (.vNum 1)))
      else jsIndex
        (.vObj (jsonRTFields (upsert (spreadInto [] (ownProps c1.value)) "x" (.vNum 1)))) "x") =
      JsVal.vNum 1
    rw [if_neg (by decide : ¬("x" = ""))]
    show (alookup (jsonRTFields (upsert (spreadInto [] (ownProps c1.value)) "x" (.vNum 1)))
        "x").getD .vUndefined = JsVal.vNum 1
    rw [hx]
    rfl

/-- C6 witness: the theorem instantiated at a cell created from an empty
record on the key "k" in an empty browser environment. -/
theorem spec_c6_witness :
    ∃ c3 env3,
      createState .vUndefined (some "k")
        (((⟨.vObj [], [], some "k"⟩ : Cell).set (.vObj [("x", .vNum 1)])
          ⟨true, [("k", .jsonText (.vObj []))], [("k", .vObj [])]⟩).2.1) = .ok (c3, env3) ∧
      c3.get (some "x") = .vNum 1 :=
  spec_c6_persistence_roundtrip (.vObj []) "k" envLS ⟨.vObj [], [], some "k"⟩
    ⟨true, [("k", .jsonText (.vObj []))], [("k", .vObj [])]⟩ rfl (by decide) rfl
